import Mathlib

/-!
Verification of the weibo_hide API-client layer (src/weibo_client.rs).

The Rust code is shallowly embedded: strings are manipulated as lists of
characters (mirroring the byte/char iteration of the Rust `str` methods),
network responses are supplied by explicit oracles (`Nat → AttemptResult`
for retry attempts, `Nat → PageFetch` for page fetches), and the `u32`
page counter is a `Nat` reduced modulo `2 ^ 32` at the increment, which is
the wrapping behaviour of release-mode Rust arithmetic.  Fallible Rust
functions returning `Result` become `Except`; `Option` stays `Option`.
-/

namespace WeiboHide

/-! ## Character-list helpers mirroring Rust `str` operations -/

/-- Embedding of Rust `str::split(c)`: splits at every occurrence of the
separator, keeping empty pieces, so the result is always non-empty. -/
def splitOnChar (sep : Char) : List Char → List (List Char)
  | [] => [[]]
  | c :: rest =>
    if c = sep then [] :: splitOnChar sep rest
    else
      match splitOnChar sep rest with
      | [] => [[c]]
      | h :: t => (c :: h) :: t

/-- Embedding of Rust `str::trim`: drop whitespace from both ends.
(`Char.isWhitespace` covers the ASCII whitespace relevant to cookies.) -/
def trimChars (l : List Char) : List Char :=
  ((l.dropWhile Char.isWhitespace).reverse.dropWhile Char.isWhitespace).reverse

/-- Embedding of Rust `str::starts_with`: first argument is the string,
second the candidate leading segment. -/
def startsWithChars : List Char → List Char → Bool
  | _, [] => true
  | [], _ :: _ => false
  | c :: cs, p :: ps => (c = p) && startsWithChars cs ps

/-! ## Session context (WeiboPrivacyClient::new / extract_xsrf_token) -/

/-- The literal `"XSRF-TOKEN="` tested by `starts_with` in
`extract_xsrf_token` (src/weibo_client.rs line 134). -/
def xsrfMarker : List Char := "XSRF-TOKEN=".toList

/-- Embedding of `WeiboPrivacyClient::extract_xsrf_token`
(src/weibo_client.rs lines 131-137): split the cookie at every semicolon,
find the first segment whose trimmed form starts with `XSRF-TOKEN=`, take
the second `=`-delimited piece of that (untrimmed) segment, and trim it. -/
def extract_xsrf_token (cookie : String) : Option String :=
  ((((splitOnChar ';' cookie.toList).find?
        (fun s => startsWithChars (trimChars s) xsrfMarker)).bind
      (fun s => (splitOnChar '=' s)[1]?)).map
    (fun s => (trimChars s).asString))

/-- The construction failure of `WeiboPrivacyClient::new`: the cookie holds
no XSRF token (the `anyhow!` error at src/weibo_client.rs line 114). -/
inductive AuthFailure where
  | AuthError
deriving DecidableEq, Repr

/-- The session context held by `WeiboPrivacyClient`
(src/weibo_client.rs lines 100-104).  The `reqwest::Client` field carries
no observable state and is omitted; building it with fixed settings does
not fail. -/
structure WeiboPrivacyClient where
  cookie : String
  xsrf_token : String
deriving DecidableEq, Repr

/-- Embedding of `WeiboPrivacyClient::new` (src/weibo_client.rs
lines 112-128): extract the token or fail, then store the raw cookie and
the token. -/
def WeiboPrivacyClient.new (cookie : String) :
    Except AuthFailure WeiboPrivacyClient :=
  match extract_xsrf_token cookie with
  | some t => .ok ⟨cookie, t⟩
  | none => .error .AuthError

/-- Everything after the first `=` of a segment, to the end of the
segment.  This is the value the specification describes: the substring
between `=` and the next `;` (the segment already ends at the `;`). -/
def afterFirstEq : List Char → List Char
  | [] => []
  | c :: rest => if c = '=' then rest else afterFirstEq rest

/-- Token extraction as the specification words it: on the found segment,
take everything between the first `=` and the end of the segment, trimmed.
To be compared with `extract_xsrf_token`, which stops at the second `=`. -/
def extract_xsrf_token_claimed (cookie : String) : Option String :=
  (((splitOnChar ';' cookie.toList).find?
        (fun s => startsWithChars (trimChars s) xsrfMarker)).map
    (fun s => (trimChars (afterFirstEq s)).asString))

/-! ## Items and the paginated lister (get_all_weibo_ids) -/

/-- Embedding of `WeiboInfo` (src/weibo_client.rs lines 31-37). -/
structure WeiboInfo where
  id : String
  text : Option String
  created_at : Option String
deriving DecidableEq, Repr

/-- Errors raised while listing, in the order they appear in
`get_all_weibo_ids` and `get_with_retry`. -/
inductive ListError where
  /-- terminal `anyhow!("HTTP error {}: {}", status, body)` after retries -/
  | httpError (status : Nat) (body : String)
  /-- terminal `anyhow!("Failed to request: {}", e)` after retries -/
  | requestFailed (msg : String)
  /-- `serde_json::from_str` failure at the given page (line 158) -/
  | parseFailed (page : Nat)
  /-- `anyhow!("API 返回错误: ok={}", ok)` (line 162) -/
  | apiError (ok : Int)
  /-- marks the `unreachable!()` after a retry loop; proved dead below -/
  | unreachableEnd
deriving DecidableEq, Repr

/-- The observable outcome of fetching one page: a propagated fetch or
body-read error, a JSON parse failure, or a parsed `WeiboListResponse`
envelope carrying its `ok` flag and its `data.list`. -/
inductive PageFetch where
  | fetchErr (e : ListError)
  | parseFailed
  | parsed (ok : Int) (list : List WeiboInfo)
deriving DecidableEq, Repr

/-- `2 ^ 32`, the modulus of the `u32` page counter. -/
def U32_MOD : Nat := 4294967296

/-- `u32::MAX`, the default page ceiling (`max_pages.unwrap_or(u32::MAX)`,
src/weibo_client.rs line 143). -/
def U32_MAX : Nat := 4294967295

/-- The page loop of `get_all_weibo_ids` (src/weibo_client.rs
lines 145-178), fuel-indexed so that every run is finite.  Returns the
list of page numbers requested together with `some` final outcome, or
`none` when the fuel ran out before the loop finished.  `page + 1` is
reduced modulo `2 ^ 32`: the counter is a `u32` and wraps. -/
def get_all_weibo_ids_go (fetch : Nat → PageFetch) (max_pages : Nat) :
    Nat → Nat → List WeiboInfo →
      List Nat × Option (Except ListError (List WeiboInfo))
  | 0, _, _ => ([], none)
  | fuel + 1, page, acc =>
    if page > max_pages then ([], some (.ok acc))
    else
      match fetch page with
      | .fetchErr e => ([page], some (.error e))
      | .parseFailed => ([page], some (.error (.parseFailed page)))
      | .parsed ok l =>
        if ok ≠ 1 then ([page], some (.error (.apiError ok)))
        else if l.isEmpty then ([page], some (.ok acc))
        else
          let r := get_all_weibo_ids_go fetch max_pages fuel
            ((page + 1) % U32_MOD) (acc ++ l)
          (page :: r.1, r.2)

/-- Embedding of `WeiboPrivacyClient::get_all_weibo_ids`
(src/weibo_client.rs lines 140-181) over a page oracle: applies the
default ceiling `u32::MAX` and starts the loop at page 1 with an empty
accumulator. -/
def get_all_weibo_ids (fetch : Nat → PageFetch) (max_pages : Option Nat)
    (fuel : Nat) : List Nat × Option (Except ListError (List WeiboInfo)) :=
  get_all_weibo_ids_go fetch (max_pages.getD U32_MAX) fuel 1 []

/-! ## Retry policy (get_with_retry and the loop of set_weibo_privacy) -/

/-- `MAX_RETRIES` (src/weibo_client.rs line 108). -/
def MAX_RETRIES : Nat := 3

/-- The outcome of one `request.send().await`: a transport error or a
response with an HTTP status and a body. -/
inductive AttemptResult where
  | sendErr (msg : String)
  | response (status : Nat) (body : String)
deriving DecidableEq, Repr

/-- `reqwest::StatusCode::is_success`: status in `200..=299`. -/
def statusIsSuccess (s : Nat) : Bool := 200 ≤ s && s < 300

/-- Embedding of the `for retry in 0..MAX_RETRIES` loop of
`get_with_retry` (src/weibo_client.rs lines 271-308).  Returns the number
of attempts issued, the list of backoff waits (in seconds, one `2^retry`
wait after each failed non-final attempt) and the result: the successful
status and body, or the terminal error.  The `0` fuel case models falling
through the loop to `unreachable!()`. -/
def get_with_retry_go (att : Nat → AttemptResult) :
    Nat → Nat → Nat × List Nat × Except ListError (Nat × String)
  | 0, _ => (0, [], .error .unreachableEnd)
  | rem + 1, retry =>
    match att retry with
    | .response status body =>
      if statusIsSuccess status then (1, [], .ok (status, body))
      else if retry = MAX_RETRIES - 1 then
        (1, [], .error (.httpError status body))
      else
        let r := get_with_retry_go att rem (retry + 1)
        (r.1 + 1, 2 ^ retry :: r.2.1, r.2.2)
    | .sendErr e =>
      if retry = MAX_RETRIES - 1 then (1, [], .error (.requestFailed e))
      else
        let r := get_with_retry_go att rem (retry + 1)
        (r.1 + 1, 2 ^ retry :: r.2.1, r.2.2)

/-- Embedding of `WeiboPrivacyClient::get_with_retry`
(src/weibo_client.rs lines 270-311) over an attempt oracle. -/
def get_with_retry (att : Nat → AttemptResult) :
    Nat × List Nat × Except ListError (Nat × String) :=
  get_with_retry_go att MAX_RETRIES 0

/-! ## Mutator (set_weibo_privacy) -/

/-- Embedding of `PrivacyResponse` (src/weibo_client.rs lines 52-56):
both the status flag and the message are optional. -/
structure PrivacyResponse where
  ok : Option Int
  msg : Option String
deriving DecidableEq, Repr

/-- Errors raised by `set_weibo_privacy`. -/
inductive MutError where
  /-- `anyhow!("设置失败: {}", msg)` (line 236) -/
  | mutationError (msg : String)
  /-- terminal `anyhow!("HTTP error {}: {}", status, body)` (line 251) -/
  | httpError (status : Nat) (body : String)
  /-- terminal `anyhow!("请求失败: {}", e)` (line 256) -/
  | sendFailed (msg : String)
  /-- marks the `unreachable!()` after the retry loop; proved dead below -/
  | unreachableEnd
deriving DecidableEq, Repr

/-- Embedding of the 2xx-body interpretation of `set_weibo_privacy`
(src/weibo_client.rs lines 231-245), given the result of
`serde_json::from_str::<PrivacyResponse>`: `ok = 1` is success, any other
present `ok` fails with the message (placeholder `"未知错误"` when the
message is absent), an absent `ok` or an unparsable body is success. -/
def privacy_interpret (resp : Option PrivacyResponse) : Except MutError Unit :=
  match resp with
  | some pr =>
    match pr.ok with
    | some ok =>
      if ok = 1 then .ok ()
      else .error (.mutationError (pr.msg.getD "未知错误"))
    | none => .ok ()
  | none => .ok ()

/-- Embedding of the `for retry in 0..MAX_RETRIES` loop of
`set_weibo_privacy` (src/weibo_client.rs lines 201-264): identical retry
skeleton to `get_with_retry_go`, except that a 2xx response is interpreted
through `privacy_interpret` of the parsed body. -/
def set_weibo_privacy_go (att : Nat → AttemptResult)
    (parse : String → Option PrivacyResponse) :
    Nat → Nat → Nat × List Nat × Except MutError Unit
  | 0, _ => (0, [], .error .unreachableEnd)
  | rem + 1, retry =>
    match att retry with
    | .response status body =>
      if statusIsSuccess status then (1, [], privacy_interpret (parse body))
      else if retry = MAX_RETRIES - 1 then
        (1, [], .error (.httpError status body))
      else
        let r := set_weibo_privacy_go att parse rem (retry + 1)
        (r.1 + 1, 2 ^ retry :: r.2.1, r.2.2)
    | .sendErr e =>
      if retry = MAX_RETRIES - 1 then (1, [], .error (.sendFailed e))
      else
        let r := set_weibo_privacy_go att parse rem (retry + 1)
        (r.1 + 1, 2 ^ retry :: r.2.1, r.2.2)

/-- Embedding of `WeiboPrivacyClient::set_weibo_privacy`
(src/weibo_client.rs lines 184-267) over an attempt oracle and a body
parser. -/
def set_weibo_privacy (att : Nat → AttemptResult)
    (parse : String → Option PrivacyResponse) :
    Nat × List Nat × Except MutError Unit :=
  set_weibo_privacy_go att parse MAX_RETRIES 0

/-! ## Visibility levels and their wire codes -/

/-- Embedding of the `Visibility` enum (src/weibo_client.rs lines 7-17). -/
inductive Visibility where
  | Public
  | Private
  | FriendsOnly
  | FansOnly
deriving DecidableEq, Repr

/-- The explicit discriminants of the enum declaration
(`Public = 0`, `Private = 1`, `FriendsOnly = 2`, `FansOnly = 10`,
src/weibo_client.rs lines 10-16). -/
def Visibility.discr : Visibility → Nat
  | .Public => 0
  | .Private => 1
  | .FriendsOnly => 2
  | .FansOnly => 10

/-- The `visible_value` match inside `set_weibo_privacy`
(src/weibo_client.rs lines 188-193), in its source order. -/
def visible_value : Visibility → Nat
  | .Public => 0
  | .FriendsOnly => 2
  | .Private => 1
  | .FansOnly => 10

/-- The form parameters of the mutation request
(src/weibo_client.rs lines 196-197): the pluralized `ids` field and the
serialized visibility code. -/
def mutationParams (weibo_id : String) (v : Visibility) :
    List (String × String) :=
  [("ids", weibo_id), ("visible", toString (visible_value v))]

/-! ## JSON values and the serde-level decoders -/

/-- A JSON value, with integer numbers (the only numeric shape the claims
exercise; serde_json hands integers in `[-2^63, 2^64)` to the `visit_i64`
and `visit_u64` callbacks and everything else to `visit_f64`). -/
inductive Json where
  | null
  | bool (b : Bool)
  | num (n : Int)
  | str (s : String)
  | arr (elems : List Json)
  | obj (fields : List (String × Json))

/-- Field lookup in a JSON object (serde ignores unknown fields; duplicate
keys are not modelled, the first occurrence wins). -/
def jsonField (fields : List (String × Json)) (key : String) : Option Json :=
  (fields.find? (fun f => f.1 = key)).map (fun f => f.2)

/-- Decoding of the `ok: Option<i32>` field: absent or null is `None`, an
integer in the `i32` range is `Some`, anything else fails the envelope. -/
def parseOkField : Option Json → Option (Option Int)
  | none => some none
  | some .null => some none
  | some (.num n) =>
    if -2147483648 ≤ n ∧ n ≤ 2147483647 then some (some n) else none
  | some _ => none

/-- Decoding of the `msg: Option<String>` field. -/
def parseMsgField : Option Json → Option (Option String)
  | none => some none
  | some .null => some none
  | some (.str s) => some (some s)
  | some _ => none

/-- Decoding of `PrivacyResponse` from a JSON value, as the serde derive
of the struct behaves: only objects parse, and both fields are optional. -/
def parsePrivacyResponse : Json → Option PrivacyResponse
  | .obj fields => do
    let o ← parseOkField (jsonField fields "ok")
    let m ← parseMsgField (jsonField fields "msg")
    pure ⟨o, m⟩
  | _ => none

/-- `serde_json::from_str::<PrivacyResponse>` over a body modelled as
`Option Json` (`none` is a body that is not valid JSON at all). -/
def parsePrivacyBody (body : Option Json) : Option PrivacyResponse :=
  body.bind parsePrivacyResponse

/-- The full 2xx-body interpretation of `set_weibo_privacy`, from the
JSON level down. -/
def mutationOutcome (body : Option Json) : Except MutError Unit :=
  privacy_interpret (parsePrivacyBody body)

/-- Embedding of `deserialize_number_to_string`
(src/weibo_client.rs lines 59-98): the visitor accepts a string as-is and
turns an `i64` or `u64` into its decimal digit string; any other JSON
shape (including integers outside `[-2^63, 2^64)`, which serde_json
delivers as `f64`) is rejected. -/
def deserialize_number_to_string : Json → Option String
  | .num n =>
    if -9223372036854775808 ≤ n ∧ n ≤ 18446744073709551615 then
      some (toString n)
    else none
  | .str s => some s
  | _ => none

/-- An attempt that the retry policy classifies as failed: a transport
error, or a response whose status is not 2xx. -/
def attemptFails : AttemptResult → Bool
  | .sendErr _ => true
  | .response status _ => ! statusIsSuccess status

/-- The terminal error `get_with_retry` builds from the last attempt. -/
def terminalListError : AttemptResult → ListError
  | .sendErr e => .requestFailed e
  | .response status body => .httpError status body

/-- The terminal error `set_weibo_privacy` builds from the last attempt. -/
def terminalMutError : AttemptResult → MutError
  | .sendErr e => .sendFailed e
  | .response status body => .httpError status body

/-- A page oracle that always answers `ok = 1` with one item: an endless
supply of non-empty pages. -/
def constNonEmptyPage : Nat → PageFetch :=
  fun _ => .parsed 1 [⟨"1", none, none⟩]

/-! ## Concrete oracles used in witnesses and counterexamples -/

/-- The per-page item lists of the constant oracle. -/
def constItems : Nat → List WeiboInfo :=
  fun _ => [⟨"1", none, none⟩]

/-- One non-empty page, then an empty page: the normal exhaustion shape. -/
def pagesThenEmpty : Nat → PageFetch
  | 1 => .parsed 1 [⟨"5001", some "hello", none⟩]
  | _ => .parsed 1 []

/-- One good page, then an envelope whose flag signals failure. -/
def pagesThenApiErr : Nat → PageFetch
  | 1 => .parsed 1 [⟨"5001", some "hello", none⟩]
  | _ => .parsed (-100) []

/-- An attempt oracle on which every attempt is a non-2xx response. -/
def attAllFail : Nat → AttemptResult :=
  fun _ => .response 418 "teapot"

/-- An attempt oracle that fails twice and succeeds on the third try. -/
def attThirdOk : Nat → AttemptResult
  | 0 => .response 500 "server error"
  | 1 => .sendErr "timeout"
  | _ => .response 200 "ok-body"

/-- A body parser on which no body parses into the envelope. -/
def parseNone : String → Option PrivacyResponse :=
  fun _ => none

/-! ## Sanity checks on concrete inputs -/

example : extract_xsrf_token "a=1; XSRF-TOKEN=tok123; b=2" = some "tok123" := by decide
example : extract_xsrf_token "a=1; b=2" = none := by decide
example : extract_xsrf_token "XSRF-TOKEN=a=b" = some "a" := by decide
example : extract_xsrf_token_claimed "XSRF-TOKEN=a=b" = some "a=b" := by decide
example : extract_xsrf_token "XSRF-TOKEN=" = some "" := by decide
example : deserialize_number_to_string (.num 123456789012345678) =
    some "123456789012345678" := by decide
example : deserialize_number_to_string (.str "123456789012345678") =
    some "123456789012345678" := by decide
example : mutationOutcome (some (.obj [("ok", .num 0), ("msg", .str "rate limited")])) =
    .error (.mutationError "rate limited") := rfl
example : mutationOutcome (some (.obj [("retcode", .num 20000000)])) = .ok () := rfl
example : mutationOutcome none = .ok () := rfl

/-! ## Helper lemmas about the string helpers -/

theorem splitOnChar_ne_nil (sep : Char) (l : List Char) :
    splitOnChar sep l ≠ [] := by
  cases l with
  | nil => simp [splitOnChar]
  | cons c rest =>
    unfold splitOnChar
    by_cases h : c = sep
    · simp [h]
    · rw [if_neg h]
      cases hs : splitOnChar sep rest <;> simp

theorem mem_of_mem_startsWithChars {l p : List Char} {c : Char}
    (h : startsWithChars l p = true) (hc : c ∈ p) : c ∈ l := by
  induction p generalizing l with
  | nil => simp at hc
  | cons q ps ih =>
    cases l with
    | nil => simp [startsWithChars] at h
    | cons x xs =>
      rw [startsWithChars, Bool.and_eq_true, decide_eq_true_eq] at h
      rcases List.mem_cons.mp hc with hcq | hcps
      · exact List.mem_cons.mpr (Or.inl (by rw [hcq, ← h.1]))
      · exact List.mem_cons.mpr (Or.inr (ih h.2 hcps))

theorem mem_of_mem_trimChars {l : List Char} {c : Char}
    (h : c ∈ trimChars l) : c ∈ l := by
  unfold trimChars at h
  rw [List.mem_reverse] at h
  have h1 := (List.dropWhile_sublist (l := (l.dropWhile Char.isWhitespace).reverse)
    Char.isWhitespace).subset h
  rw [List.mem_reverse] at h1
  exact (List.dropWhile_sublist (l := l) Char.isWhitespace).subset h1

theorem two_le_length_splitOnChar {sep : Char} {l : List Char}
    (h : sep ∈ l) : 2 ≤ (splitOnChar sep l).length := by
  induction l with
  | nil => simp at h
  | cons c rest ih =>
    unfold splitOnChar
    by_cases hc : c = sep
    · rw [if_pos hc]
      have := splitOnChar_ne_nil sep rest
      cases hs : splitOnChar sep rest with
      | nil => exact absurd hs this
      | cons a as => simp
    · rw [if_neg hc]
      have hrest : sep ∈ rest := by
        rcases List.mem_cons.mp h with h1 | h1
        · exact absurd h1.symm hc
        · exact h1
      have h2 := ih hrest
      cases hs : splitOnChar sep rest with
      | nil => exact absurd hs (splitOnChar_ne_nil sep rest)
      | cons a as =>
        rw [hs] at h2
        simpa using h2

/-- When the cookie scan finds a matching segment, that segment contains
an `=`, so `split('=').nth(1)` yields a value and extraction succeeds with
that value trimmed. -/
theorem find_marker_extract {cookie : String} {s : List Char}
    (hfind : (splitOnChar ';' cookie.toList).find?
        (fun t => startsWithChars (trimChars t) xsrfMarker) = some s) :
    ∃ v, (splitOnChar '=' s)[1]? = some v ∧
      extract_xsrf_token cookie = some ((trimChars v).asString) := by
  have hpred := List.find?_some hfind
  have hmem : '=' ∈ s :=
    mem_of_mem_trimChars (mem_of_mem_startsWithChars hpred (by decide))
  have hlen := two_le_length_splitOnChar hmem
  obtain ⟨v, hv⟩ : ∃ v, (splitOnChar '=' s)[1]? = some v := by
    rw [List.getElem?_eq_getElem (by omega)]
    exact ⟨_, rfl⟩
  refine ⟨v, hv, ?_⟩
  unfold extract_xsrf_token
  rw [hfind]
  simp [hv]

/-! ## Step lemmas for the page loop -/

theorem go_zero (fetch : Nat → PageFetch) (mp page : Nat) (acc : List WeiboInfo) :
    get_all_weibo_ids_go fetch mp 0 page acc = ([], none) := rfl

theorem go_stop {mp page : Nat} (fetch : Nat → PageFetch) (fuel : Nat)
    (acc : List WeiboInfo) (h : page > mp) :
    get_all_weibo_ids_go fetch mp (fuel + 1) page acc = ([], some (.ok acc)) := by
  unfold get_all_weibo_ids_go
  rw [if_pos h]

theorem go_fetchErr {fetch : Nat → PageFetch} {mp page : Nat} {e : ListError}
    (fuel : Nat) (acc : List WeiboInfo) (hg : ¬ page > mp)
    (hf : fetch page = .fetchErr e) :
    get_all_weibo_ids_go fetch mp (fuel + 1) page acc =
      ([page], some (.error e)) := by
  unfold get_all_weibo_ids_go
  rw [if_neg hg]
  simp only [hf]

theorem go_parseFailed {fetch : Nat → PageFetch} {mp page : Nat}
    (fuel : Nat) (acc : List WeiboInfo) (hg : ¬ page > mp)
    (hf : fetch page = .parseFailed) :
    get_all_weibo_ids_go fetch mp (fuel + 1) page acc =
      ([page], some (.error (.parseFailed page))) := by
  unfold get_all_weibo_ids_go
  rw [if_neg hg]
  simp only [hf]

theorem go_apiErr {fetch : Nat → PageFetch} {mp page : Nat} {ok : Int}
    {l : List WeiboInfo} (fuel : Nat) (acc : List WeiboInfo) (hg : ¬ page > mp)
    (hf : fetch page = .parsed ok l) (hok : ok ≠ 1) :
    get_all_weibo_ids_go fetch mp (fuel + 1) page acc =
      ([page], some (.error (.apiError ok))) := by
  unfold get_all_weibo_ids_go
  rw [if_neg hg]
  simp only [hf]
  rw [if_pos hok]

theorem go_empty {fetch : Nat → PageFetch} {mp page : Nat}
    (fuel : Nat) (acc : List WeiboInfo) (hg : ¬ page > mp)
    (hf : fetch page = .parsed 1 []) :
    get_all_weibo_ids_go fetch mp (fuel + 1) page acc =
      ([page], some (.ok acc)) := by
  unfold get_all_weibo_ids_go
  rw [if_neg hg]
  simp [hf]

theorem go_cons {fetch : Nat → PageFetch} {mp page : Nat} {l : List WeiboInfo}
    (fuel : Nat) (acc : List WeiboInfo) (hg : ¬ page > mp)
    (hf : fetch page = .parsed 1 l) (hl : l ≠ []) :
    get_all_weibo_ids_go fetch mp (fuel + 1) page acc =
      (page :: (get_all_weibo_ids_go fetch mp fuel
          ((page + 1) % U32_MOD) (acc ++ l)).1,
        (get_all_weibo_ids_go fetch mp fuel
          ((page + 1) % U32_MOD) (acc ++ l)).2) := by
  have hl' : l.isEmpty = false := by
    cases l with
    | nil => exact absurd rfl hl
    | cons a as => rfl
  conv_lhs => rw [get_all_weibo_ids_go]
  rw [if_neg hg]
  simp [hf, hl']

/-! ## Main lemmas about the page loop -/

/-- Running the loop across `d` consecutive pages that all parse with
`ok = 1` and a non-empty list: the loop requests exactly those pages,
appends their items in order, and continues at page `j + d`. -/
theorem go_run (fetch : Nat → PageFetch) (L : Nat → List WeiboInfo) (mp : Nat) :
    ∀ (d j fuel : Nat) (acc : List WeiboInfo),
      (∀ i, j ≤ i → i < j + d → fetch i = .parsed 1 (L i) ∧ L i ≠ []) →
      j + d ≤ mp + 1 → j + d ≤ U32_MAX →
      get_all_weibo_ids_go fetch mp (d + fuel) j acc =
        (List.range' j d ++
            (get_all_weibo_ids_go fetch mp fuel (j + d)
              (acc ++ ((List.range' j d).map L).flatten)).1,
          (get_all_weibo_ids_go fetch mp fuel (j + d)
            (acc ++ ((List.range' j d).map L).flatten)).2) := by
  intro d
  induction d with
  | zero =>
    intro j fuel acc _ _ _
    simp [List.range']
  | succ d ih =>
    intro j fuel acc hgood hmp hmax
    obtain ⟨hj, hjne⟩ := hgood j (le_refl j) (by omega)
    have hguard : ¬ j > mp := by omega
    have hmod : (j + 1) % U32_MOD = j + 1 := by
      simp only [U32_MAX] at hmax
      simp only [U32_MOD]
      omega
    have hstep : d + 1 + fuel = (d + fuel) + 1 := by omega
    rw [hstep, go_cons (d + fuel) acc hguard hj hjne, hmod]
    have ihj := ih (j + 1) fuel (acc ++ L j)
      (fun i h1 h2 => hgood i (by omega) (by omega)) (by omega) (by omega)
    rw [show j + 1 + d = j + (d + 1) from by omega] at ihj
    rw [ihj]
    simp [List.range'_succ, List.append_assoc]

/-- Every page number the loop requests is at most the page ceiling. -/
theorem go_pages_le (fetch : Nat → PageFetch) (mp : Nat) :
    ∀ (fuel j : Nat) (acc : List WeiboInfo) (p : Nat),
      p ∈ (get_all_weibo_ids_go fetch mp fuel j acc).1 → p ≤ mp := by
  intro fuel
  induction fuel with
  | zero =>
    intro j acc p hp
    simp [go_zero] at hp
  | succ fuel ih =>
    intro j acc p hp
    by_cases hguard : j > mp
    · rw [go_stop fetch fuel acc hguard] at hp
      simp at hp
    · cases hf : fetch j with
      | fetchErr e =>
        rw [go_fetchErr fuel acc hguard hf] at hp
        simp at hp
        omega
      | parseFailed =>
        rw [go_parseFailed fuel acc hguard hf] at hp
        simp at hp
        omega
      | parsed ok l =>
        by_cases hok : ok = 1
        · subst hok
          by_cases hl : l = []
          · subst hl
            rw [go_empty fuel acc hguard hf] at hp
            simp at hp
            omega
          · rw [go_cons fuel acc hguard hf hl] at hp
            simp only [List.mem_cons] at hp
            rcases hp with hp | hp
            · omega
            · exact ih _ _ _ hp
        · rw [go_apiErr fuel acc hguard hf hok] at hp
          simp at hp
          omega

/-- With a ceiling `mp` strictly below `u32::MAX`, the loop finishes on
any oracle once the fuel covers the remaining pages: the wrap of the
`u32` counter is never reached. -/
theorem go_total (fetch : Nat → PageFetch) (mp : Nat) (hmp : mp + 1 ≤ U32_MAX) :
    ∀ (fuel j : Nat) (acc : List WeiboInfo), 1 ≤ fuel → mp + 2 ≤ j + fuel →
      (get_all_weibo_ids_go fetch mp fuel j acc).2 ≠ none := by
  intro fuel
  induction fuel with
  | zero =>
    intro j acc h1 _
    omega
  | succ fuel ih =>
    intro j acc _ h2
    by_cases hguard : j > mp
    · rw [go_stop fetch fuel acc hguard]
      simp
    · cases hf : fetch j with
      | fetchErr e =>
        rw [go_fetchErr fuel acc hguard hf]
        simp
      | parseFailed =>
        rw [go_parseFailed fuel acc hguard hf]
        simp
      | parsed ok l =>
        by_cases hok : ok = 1
        · subst hok
          by_cases hl : l = []
          · subst hl
            rw [go_empty fuel acc hguard hf]
            simp
          · rw [go_cons fuel acc hguard hf hl]
            have hmod : (j + 1) % U32_MOD = j + 1 := by
              simp only [U32_MAX] at hmp
              simp only [U32_MOD]
              omega
            rw [hmod]
            exact ih (j + 1) (acc ++ l) (by omega) (by omega)
        · rw [go_apiErr fuel acc hguard hf hok]
          simp

/-- Under the default ceiling `u32::MAX`, the wrapping `u32` page counter
never exceeds the ceiling, so on an endless supply of non-empty pages the
loop consumes any amount of fuel without finishing. -/
theorem go_const_no_fuel_enough :
    ∀ (fuel page : Nat) (acc : List WeiboInfo), page ≤ U32_MAX →
      (get_all_weibo_ids_go constNonEmptyPage U32_MAX fuel page acc).2 = none := by
  intro fuel
  induction fuel with
  | zero =>
    intro page acc _
    simp [go_zero]
  | succ fuel ih =>
    intro page acc hpage
    rw [go_cons fuel acc (by omega) rfl (by simp)]
    show (get_all_weibo_ids_go constNonEmptyPage U32_MAX fuel
      ((page + 1) % U32_MOD) (acc ++ [⟨"1", none, none⟩])).2 = none
    apply ih
    simp only [U32_MOD, U32_MAX]
    omega

/-! ## Lemmas about the retry loops -/

theorem retry_go_success {att : Nat → AttemptResult} {retry status : Nat}
    {body : String} (rem : Nat) (ha : att retry = .response status body)
    (hs : statusIsSuccess status = true) :
    get_with_retry_go att (rem + 1) retry = (1, [], .ok (status, body)) := by
  unfold get_with_retry_go
  simp [ha, hs]

theorem retry_go_fail_step {att : Nat → AttemptResult} {retry : Nat} (rem : Nat)
    (hr : retry ≠ MAX_RETRIES - 1) (hfail : attemptFails (att retry) = true) :
    get_with_retry_go att (rem + 1) retry =
      ((get_with_retry_go att rem (retry + 1)).1 + 1,
        2 ^ retry :: (get_with_retry_go att rem (retry + 1)).2.1,
        (get_with_retry_go att rem (retry + 1)).2.2) := by
  cases ha : att retry with
  | sendErr e =>
    conv_lhs => rw [get_with_retry_go]
    simp [ha, hr]
  | response status body =>
    have hs : statusIsSuccess status = false := by
      rw [ha] at hfail
      simpa [attemptFails] using hfail
    conv_lhs => rw [get_with_retry_go]
    simp [ha, hs, hr]

theorem retry_go_fail_final {att : Nat → AttemptResult} {retry : Nat} (rem : Nat)
    (hr : retry = MAX_RETRIES - 1) (hfail : attemptFails (att retry) = true) :
    get_with_retry_go att (rem + 1) retry =
      (1, [], .error (terminalListError (att retry))) := by
  subst hr
  cases ha : att (MAX_RETRIES - 1) with
  | sendErr e =>
    conv_lhs => rw [get_with_retry_go]
    simp [ha, terminalListError]
  | response status body =>
    have hs : statusIsSuccess status = false := by
      rw [ha] at hfail
      simpa [attemptFails] using hfail
    conv_lhs => rw [get_with_retry_go]
    simp [ha, hs, terminalListError]

theorem mut_go_success {att : Nat → AttemptResult} {retry status : Nat}
    {body : String} (parse : String → Option PrivacyResponse) (rem : Nat)
    (ha : att retry = .response status body) (hs : statusIsSuccess status = true) :
    set_weibo_privacy_go att parse (rem + 1) retry =
      (1, [], privacy_interpret (parse body)) := by
  unfold set_weibo_privacy_go
  simp [ha, hs]

theorem mut_go_fail_step {att : Nat → AttemptResult} {retry : Nat}
    (parse : String → Option PrivacyResponse) (rem : Nat)
    (hr : retry ≠ MAX_RETRIES - 1) (hfail : attemptFails (att retry) = true) :
    set_weibo_privacy_go att parse (rem + 1) retry =
      ((set_weibo_privacy_go att parse rem (retry + 1)).1 + 1,
        2 ^ retry :: (set_weibo_privacy_go att parse rem (retry + 1)).2.1,
        (set_weibo_privacy_go att parse rem (retry + 1)).2.2) := by
  cases ha : att retry with
  | sendErr e =>
    conv_lhs => rw [set_weibo_privacy_go]
    simp [ha, hr]
  | response status body =>
    have hs : statusIsSuccess status = false := by
      rw [ha] at hfail
      simpa [attemptFails] using hfail
    conv_lhs => rw [set_weibo_privacy_go]
    simp [ha, hs, hr]

theorem mut_go_fail_final {att : Nat → AttemptResult} {retry : Nat}
    (parse : String → Option PrivacyResponse) (rem : Nat)
    (hr : retry = MAX_RETRIES - 1) (hfail : attemptFails (att retry) = true) :
    set_weibo_privacy_go att parse (rem + 1) retry =
      (1, [], .error (terminalMutError (att retry))) := by
  subst hr
  cases ha : att (MAX_RETRIES - 1) with
  | sendErr e =>
    conv_lhs => rw [set_weibo_privacy_go]
    simp [ha, terminalMutError]
  | response status body =>
    have hs : statusIsSuccess status = false := by
      rw [ha] at hfail
      simpa [attemptFails] using hfail
    conv_lhs => rw [set_weibo_privacy_go]
    simp [ha, hs, terminalMutError]

/-- In the tail of the retry loop (fuel `n`, starting at attempt `retry`),
if every remaining attempt fails, the loop issues all `n` remaining
attempts, waits `2^retry, ..., 2^(MAX_RETRIES-2)` seconds between them,
and surfaces the terminal error built from the last attempt. -/
theorem retry_go_exhaust (att : Nat → AttemptResult) :
    ∀ (n retry : Nat), retry + n = MAX_RETRIES → 1 ≤ n →
      (∀ i, retry ≤ i → i < MAX_RETRIES → attemptFails (att i) = true) →
      get_with_retry_go att n retry =
        (n, (List.range' retry (n - 1)).map (2 ^ ·),
          .error (terminalListError (att (MAX_RETRIES - 1)))) := by
  intro n
  induction n with
  | zero =>
    intro retry _ h1 _
    omega
  | succ n ih =>
    intro retry hsum _ hfail
    by_cases hn : n = 0
    · subst hn
      have hr : retry = MAX_RETRIES - 1 := by
        simp only [MAX_RETRIES] at hsum ⊢
        omega
      rw [retry_go_fail_final 0 hr
        (hfail retry (le_refl retry) (by simp only [MAX_RETRIES] at hsum ⊢; omega))]
      rw [hr]
      simp
    · have hr : retry ≠ MAX_RETRIES - 1 := by
        simp only [MAX_RETRIES] at hsum ⊢
        omega
      rw [retry_go_fail_step n hr
        (hfail retry (le_refl retry) (by simp only [MAX_RETRIES] at hsum ⊢; omega))]
      rw [ih (retry + 1) (by omega) (by omega)
        (fun i hi1 hi2 => hfail i (by omega) hi2)]
      have hrange : List.range' retry (n + 1 - 1) =
          retry :: List.range' (retry + 1) (n - 1) := by
        rw [show n + 1 - 1 = (n - 1) + 1 from by omega]
        exact List.range'_succ retry (n - 1) 1
      rw [hrange]
      simp

/-- In the tail of the retry loop, if attempts `retry, ..., k - 1` fail
and attempt `k` is a 2xx response, the loop stops at attempt `k` with the
successful status and body, having waited `2^retry, ..., 2^(k-1)` seconds
in between. -/
theorem retry_go_succeeds (att : Nat → AttemptResult) (status : Nat)
    (body : String) :
    ∀ (n retry k : Nat), retry + n = MAX_RETRIES → retry ≤ k →
      k < MAX_RETRIES →
      (∀ i, retry ≤ i → i < k → attemptFails (att i) = true) →
      att k = .response status body → statusIsSuccess status = true →
      get_with_retry_go att n retry =
        (k + 1 - retry, (List.range' retry (k - retry)).map (2 ^ ·),
          .ok (status, body)) := by
  intro n
  induction n with
  | zero =>
    intro retry k hsum hrk hk _ _ _
    omega
  | succ n ih =>
    intro retry k hsum hrk hk hfail ha hs
    by_cases hreq : retry = k
    · subst hreq
      rw [retry_go_success n ha hs]
      simp
    · have hr : retry ≠ MAX_RETRIES - 1 := by
        simp only [MAX_RETRIES] at hsum hk ⊢
        omega
      rw [retry_go_fail_step n hr (hfail retry (le_refl retry) (by omega))]
      rw [ih (retry + 1) k (by omega) (by omega) hk
        (fun i hi1 hi2 => hfail i (by omega) hi2) ha hs]
      have hrange : List.range' retry (k - retry) =
          retry :: List.range' (retry + 1) (k - retry - 1) := by
        rw [show k - retry = (k - retry - 1) + 1 from by omega]
        exact List.range'_succ retry (k - retry - 1) 1
      rw [hrange]
      have hlt : retry < k := lt_of_le_of_ne hrk hreq
      simp only [Prod.mk.injEq, List.map_cons]
      exact ⟨by omega, by rw [Nat.sub_sub], trivial⟩

/-- Mutation-path version of the exhaustion lemma. -/
theorem mut_go_exhaust (att : Nat → AttemptResult)
    (parse : String → Option PrivacyResponse) :
    ∀ (n retry : Nat), retry + n = MAX_RETRIES → 1 ≤ n →
      (∀ i, retry ≤ i → i < MAX_RETRIES → attemptFails (att i) = true) →
      set_weibo_privacy_go att parse n retry =
        (n, (List.range' retry (n - 1)).map (2 ^ ·),
          .error (terminalMutError (att (MAX_RETRIES - 1)))) := by
  intro n
  induction n with
  | zero =>
    intro retry _ h1 _
    omega
  | succ n ih =>
    intro retry hsum _ hfail
    by_cases hn : n = 0
    · subst hn
      have hr : retry = MAX_RETRIES - 1 := by
        simp only [MAX_RETRIES] at hsum ⊢
        omega
      rw [mut_go_fail_final parse 0 hr
        (hfail retry (le_refl retry) (by simp only [MAX_RETRIES] at hsum ⊢; omega))]
      rw [hr]
      simp
    · have hr : retry ≠ MAX_RETRIES - 1 := by
        simp only [MAX_RETRIES] at hsum ⊢
        omega
      rw [mut_go_fail_step parse n hr
        (hfail retry (le_refl retry) (by simp only [MAX_RETRIES] at hsum ⊢; omega))]
      rw [ih (retry + 1) (by omega) (by omega)
        (fun i hi1 hi2 => hfail i (by omega) hi2)]
      have hrange : List.range' retry (n + 1 - 1) =
          retry :: List.range' (retry + 1) (n - 1) := by
        rw [show n + 1 - 1 = (n - 1) + 1 from by omega]
        exact List.range'_succ retry (n - 1) 1
      rw [hrange]
      simp

/-- Mutation-path version of the success lemma: the result is the
interpretation of the successful body. -/
theorem mut_go_succeeds (att : Nat → AttemptResult)
    (parse : String → Option PrivacyResponse) (status : Nat) (body : String) :
    ∀ (n retry k : Nat), retry + n = MAX_RETRIES → retry ≤ k →
      k < MAX_RETRIES →
      (∀ i, retry ≤ i → i < k → attemptFails (att i) = true) →
      att k = .response status body → statusIsSuccess status = true →
      set_weibo_privacy_go att parse n retry =
        (k + 1 - retry, (List.range' retry (k - retry)).map (2 ^ ·),
          privacy_interpret (parse body)) := by
  intro n
  induction n with
  | zero =>
    intro retry k hsum hrk hk _ _ _
    omega
  | succ n ih =>
    intro retry k hsum hrk hk hfail ha hs
    by_cases hreq : retry = k
    · subst hreq
      rw [mut_go_success parse n ha hs]
      simp
    · have hr : retry ≠ MAX_RETRIES - 1 := by
        simp only [MAX_RETRIES] at hsum hk ⊢
        omega
      rw [mut_go_fail_step parse n hr (hfail retry (le_refl retry) (by omega))]
      rw [ih (retry + 1) k (by omega) (by omega) hk
        (fun i hi1 hi2 => hfail i (by omega) hi2) ha hs]
      have hrange : List.range' retry (k - retry) =
          retry :: List.range' (retry + 1) (k - retry - 1) := by
        rw [show k - retry = (k - retry - 1) + 1 from by omega]
        exact List.range'_succ retry (k - retry - 1) 1
      rw [hrange]
      have hlt : retry < k := lt_of_le_of_ne hrk hreq
      simp only [Prod.mk.injEq, List.map_cons]
      exact ⟨by omega, by rw [Nat.sub_sub], trivial⟩

/-- The `unreachable!()` after the loop of `get_with_retry` is dead code:
called with the full retry budget, the loop always returns before the
fuel runs out, whatever the attempts do. -/
theorem retry_go_not_unreachable (att : Nat → AttemptResult) :
    ∀ (n retry : Nat), retry + n = MAX_RETRIES → 1 ≤ n →
      (get_with_retry_go att n retry).2.2 ≠ .error .unreachableEnd := by
  intro n
  induction n with
  | zero =>
    intro retry _ h
    omega
  | succ n ih =>
    intro retry hsum _
    cases ha : att retry with
    | sendErr e =>
      have hfail : attemptFails (att retry) = true := by
        simp [attemptFails, ha]
      by_cases hr : retry = MAX_RETRIES - 1
      · rw [retry_go_fail_final n hr hfail]
        simp [ha, terminalListError]
      · rw [retry_go_fail_step n hr hfail]
        exact ih (retry + 1) (by simp only [MAX_RETRIES] at hsum hr ⊢; omega)
          (by simp only [MAX_RETRIES] at hsum hr ⊢; omega)
    | response status body =>
      by_cases hs : statusIsSuccess status = true
      · rw [retry_go_success n ha hs]
        simp
      · have hfail : attemptFails (att retry) = true := by
          cases hval : statusIsSuccess status with
          | true => exact absurd hval hs
          | false => simp [attemptFails, ha, hval]
        by_cases hr : retry = MAX_RETRIES - 1
        · rw [retry_go_fail_final n hr hfail]
          simp [ha, terminalListError]
        · rw [retry_go_fail_step n hr hfail]
          exact ih (retry + 1) (by simp only [MAX_RETRIES] at hsum hr ⊢; omega)
            (by simp only [MAX_RETRIES] at hsum hr ⊢; omega)

/-- The `unreachable!()` after the loop of `set_weibo_privacy` is dead
code in the same way, provided the body interpretation itself is not
blamed (it never is: `privacy_interpret` only builds `mutationError`). -/
theorem mut_go_not_unreachable (att : Nat → AttemptResult)
    (parse : String → Option PrivacyResponse) :
    ∀ (n retry : Nat), retry + n = MAX_RETRIES → 1 ≤ n →
      (set_weibo_privacy_go att parse n retry).2.2 ≠ .error .unreachableEnd := by
  intro n
  induction n with
  | zero =>
    intro retry _ h
    omega
  | succ n ih =>
    intro retry hsum _
    cases ha : att retry with
    | sendErr e =>
      have hfail : attemptFails (att retry) = true := by
        simp [attemptFails, ha]
      by_cases hr : retry = MAX_RETRIES - 1
      · rw [mut_go_fail_final parse n hr hfail]
        simp [ha, terminalMutError]
      · rw [mut_go_fail_step parse n hr hfail]
        exact ih (retry + 1) (by simp only [MAX_RETRIES] at hsum hr ⊢; omega)
          (by simp only [MAX_RETRIES] at hsum hr ⊢; omega)
    | response status body =>
      by_cases hs : statusIsSuccess status = true
      · rw [mut_go_success parse n ha hs]
        unfold privacy_interpret
        cases hp : parse body with
        | none => simp
        | some pr =>
          cases hok2 : pr.ok with
          | none => simp [hok2]
          | some okv =>
            by_cases hok : okv = 1 <;> simp [hok2, hok]
      · have hfail : attemptFails (att retry) = true := by
          cases hval : statusIsSuccess status with
          | true => exact absurd hval hs
          | false => simp [attemptFails, ha, hval]
        by_cases hr : retry = MAX_RETRIES - 1
        · rw [mut_go_fail_final parse n hr hfail]
          simp [ha, terminalMutError]
        · rw [mut_go_fail_step parse n hr hfail]
          exact ih (retry + 1) (by simp only [MAX_RETRIES] at hsum hr ⊢; omega)
            (by simp only [MAX_RETRIES] at hsum hr ⊢; omega)

/-! ## Claim theorems -/

/-- C1 (counterexample): on the credential string `"XSRF-TOKEN=a=b"` the
claim predicts the token `"a=b"` (everything between `=` and the next `;`
or end of string, trimmed), but the code stores only the piece between
the first and the second `=`, namely `"a"`. -/
theorem claim1_counterexample :
    extract_xsrf_token_claimed "XSRF-TOKEN=a=b" = some "a=b" ∧
    extract_xsrf_token "XSRF-TOKEN=a=b" = some "a" ∧
    WeiboPrivacyClient.new "XSRF-TOKEN=a=b" = .ok ⟨"XSRF-TOKEN=a=b", "a"⟩ ∧
    ("a" : String) ≠ "a=b" :=
  ⟨by decide, by decide, rfl, by decide⟩

/-- C1 (amended): client construction succeeds exactly when the credential
string has a semicolon-delimited segment whose trimmed form begins with
`XSRF-TOKEN=`; on success the stored anti-forgery token equals the exact
substring of the first such segment between the first `=` and the next `=`
(or the segment end), trimmed; when no such segment exists, construction
fails with `AuthError`. -/
theorem claim1_amended (cookie : String) :
    ((WeiboPrivacyClient.new cookie).isOk = true ↔
      ∃ s ∈ splitOnChar ';' cookie.toList,
        startsWithChars (trimChars s) xsrfMarker = true) ∧
    (∀ cl : WeiboPrivacyClient, WeiboPrivacyClient.new cookie = .ok cl →
      cl.cookie = cookie ∧
      ∃ s v, (splitOnChar ';' cookie.toList).find?
            (fun t => startsWithChars (trimChars t) xsrfMarker) = some s ∧
        (splitOnChar '=' s)[1]? = some v ∧
        cl.xsrf_token = (trimChars v).asString) ∧
    ((∀ s ∈ splitOnChar ';' cookie.toList,
        startsWithChars (trimChars s) xsrfMarker = false) →
      WeiboPrivacyClient.new cookie = .error .AuthError) := by
  refine ⟨⟨?_, ?_⟩, ?_, ?_⟩
  · intro hok
    cases hfind : (splitOnChar ';' cookie.toList).find?
        (fun t => startsWithChars (trimChars t) xsrfMarker) with
    | none =>
      exfalso
      have hnone : extract_xsrf_token cookie = none := by
        unfold extract_xsrf_token
        rw [hfind]
        rfl
      unfold WeiboPrivacyClient.new at hok
      rw [hnone] at hok
      simp [Except.isOk, Except.toBool] at hok
    | some s =>
      have hp := List.find?_some hfind
      exact ⟨s, List.mem_of_find?_eq_some hfind, hp⟩
  · rintro ⟨s, hs, hp⟩
    have hsome : (List.find? (fun t => startsWithChars (trimChars t) xsrfMarker)
        (splitOnChar ';' cookie.toList)).isSome = true :=
      List.find?_isSome.mpr ⟨s, hs, hp⟩
    obtain ⟨s2, hfind⟩ := Option.isSome_iff_exists.mp hsome
    obtain ⟨v, hv, hext⟩ := find_marker_extract hfind
    unfold WeiboPrivacyClient.new
    rw [hext]
    rfl
  · intro cl hcl
    cases hfind : (splitOnChar ';' cookie.toList).find?
        (fun t => startsWithChars (trimChars t) xsrfMarker) with
    | none =>
      exfalso
      have hnone : extract_xsrf_token cookie = none := by
        unfold extract_xsrf_token
        rw [hfind]
        rfl
      unfold WeiboPrivacyClient.new at hcl
      rw [hnone] at hcl
      exact absurd hcl (by simp)
    | some s =>
      obtain ⟨v, hv, hext⟩ := find_marker_extract hfind
      unfold WeiboPrivacyClient.new at hcl
      rw [hext] at hcl
      rw [Except.ok.injEq] at hcl
      subst hcl
      exact ⟨rfl, s, v, rfl, hv, rfl⟩
  · intro hall
    have hfind : (splitOnChar ';' cookie.toList).find?
        (fun t => startsWithChars (trimChars t) xsrfMarker) = none :=
      List.find?_eq_none.mpr (fun x hx => by simp [hall x hx])
    have hnone : extract_xsrf_token cookie = none := by
      unfold extract_xsrf_token
      rw [hfind]
      rfl
    unfold WeiboPrivacyClient.new
    rw [hnone]

/-- C1 (witness): a cookie with the token segment constructs, a cookie
without it fails with `AuthError`. -/
theorem claim1_witness :
    (WeiboPrivacyClient.new "SUB=x; XSRF-TOKEN=tok42").isOk = true ∧
    WeiboPrivacyClient.new "SUB=x; other=1" = .error .AuthError := by
  constructor
  · exact (claim1_amended "SUB=x; XSRF-TOKEN=tok42").1.mpr
      ⟨" XSRF-TOKEN=tok42".toList, by decide, by decide⟩
  · exact (claim1_amended "SUB=x; other=1").2.2 (by decide)

/-- C2 (counterexample): the credential string `"XSRF-TOKEN="` constructs
a client whose stored anti-forgery token is the empty string, so a
successfully constructed client can hold an empty token. -/
theorem claim2_counterexample :
    WeiboPrivacyClient.new "XSRF-TOKEN=" = .ok ⟨"XSRF-TOKEN=", ""⟩ := rfl

/-- C2 (amended): every successfully constructed client stores the
original credential string and the token extracted from it — the token is
always derivable from the credential blob, but it may be empty (for
example for the segment `XSRF-TOKEN=`). -/
theorem claim2_amended (cookie : String) (cl : WeiboPrivacyClient)
    (h : WeiboPrivacyClient.new cookie = .ok cl) :
    extract_xsrf_token cookie = some cl.xsrf_token ∧ cl.cookie = cookie := by
  unfold WeiboPrivacyClient.new at h
  cases hext : extract_xsrf_token cookie with
  | none =>
    rw [hext] at h
    exact absurd h (by simp)
  | some t =>
    rw [hext] at h
    rw [Except.ok.injEq] at h
    subst h
    exact ⟨rfl, rfl⟩

/-- C2 (witness): the amended claim at a concrete cookie. -/
theorem claim2_witness :
    extract_xsrf_token "a=1; XSRF-TOKEN=tok42; b=2" = some "tok42" :=
  (claim2_amended "a=1; XSRF-TOKEN=tok42; b=2"
    ⟨"a=1; XSRF-TOKEN=tok42; b=2", "tok42"⟩ rfl).1

/-- C5: after a 2xx response, the mutation succeeds when the body parses
with `ok = 1`; fails with `MutationError` carrying the message (or the
placeholder `"未知错误"`) when `ok` is present and not 1; and succeeds
when the body does not parse into the envelope or `ok` is absent. -/
theorem claim5_mutation_interpretation (body : Option Json) :
    (∀ pr : PrivacyResponse, parsePrivacyBody body = some pr →
      pr.ok = some 1 → mutationOutcome body = .ok ()) ∧
    (∀ (pr : PrivacyResponse) (n : Int), parsePrivacyBody body = some pr →
      pr.ok = some n → n ≠ 1 →
      mutationOutcome body = .error (.mutationError (pr.msg.getD "未知错误"))) ∧
    (∀ pr : PrivacyResponse, parsePrivacyBody body = some pr →
      pr.ok = none → mutationOutcome body = .ok ()) ∧
    (parsePrivacyBody body = none → mutationOutcome body = .ok ()) := by
  refine ⟨?_, ?_, ?_, ?_⟩
  · intro pr h hok
    simp [mutationOutcome, privacy_interpret, h, hok]
  · intro pr n h hok hne
    simp [mutationOutcome, privacy_interpret, h, hok, hne]
  · intro pr h hok
    simp [mutationOutcome, privacy_interpret, h, hok]
  · intro h
    simp [mutationOutcome, privacy_interpret, h]

/-- C5 (witness): the envelope `{"ok":0,"msg":"rate limited"}` yields
`MutationError` carrying `"rate limited"`. -/
theorem claim5_witness :
    mutationOutcome (some (.obj [("ok", .num 0), ("msg", .str "rate limited")])) =
      .error (.mutationError "rate limited") :=
  (claim5_mutation_interpretation
      (some (.obj [("ok", .num 0), ("msg", .str "rate limited")]))).2.1
    ⟨some 0, some "rate limited"⟩ 0 rfl rfl (by decide)

/-- C6: every integer identifier the deserializer accepts (the `i64` and
`u64` visitor range) is normalized to its exact decimal digit string, and
the same digits arriving as a JSON string normalize identically — in
particular with no precision loss beyond the float-safe range. -/
theorem claim6_id_normalization (n : Int)
    (h1 : -9223372036854775808 ≤ n) (h2 : n ≤ 18446744073709551615) :
    deserialize_number_to_string (.num n) = some (toString n) ∧
    deserialize_number_to_string (.str (toString n)) = some (toString n) := by
  constructor
  · show (if -9223372036854775808 ≤ n ∧ n ≤ 18446744073709551615 then
        some (toString n)
      else none) = some (toString n)
    rw [if_pos ⟨h1, h2⟩]
  · rfl

/-- C6 (witness): the JSON integer `123456789012345678` (beyond the
float-safe range) and the JSON string `"123456789012345678"` normalize to
the identical textual id. -/
theorem claim6_witness :
    deserialize_number_to_string (.num 123456789012345678) =
      some "123456789012345678" ∧
    deserialize_number_to_string (.str "123456789012345678") =
      some "123456789012345678" := by
  have h := claim6_id_normalization 123456789012345678 (by norm_num) (by norm_num)
  have hs : toString (123456789012345678 : Int) = "123456789012345678" := by decide
  rw [hs] at h
  exact h

/-- C8: the visibility mapping is fixed (`Public` to 0, `Private` to 1,
`FriendsOnly` to 2, `FansOnly` to 10), injective, agrees with the enum
discriminants, and `set_weibo_privacy` serializes a level into the form
parameters through this single mapping. -/
theorem claim8_visibility_codes :
    (visible_value .Public = 0 ∧ visible_value .Private = 1 ∧
      visible_value .FriendsOnly = 2 ∧ visible_value .FansOnly = 10) ∧
    (∀ v w : Visibility, visible_value v = visible_value w → v = w) ∧
    (∀ v : Visibility, visible_value v = Visibility.discr v) ∧
    (∀ (weibo_id : String) (v : Visibility),
      mutationParams weibo_id v =
        [("ids", weibo_id), ("visible", toString (visible_value v))]) :=
  ⟨by decide,
    fun v w h => by
      cases v <;> cases w <;> first | rfl | simp [visible_value] at h,
    fun v => by cases v <;> rfl,
    fun weibo_id v => rfl⟩

/-- C8 (witness): the injectivity and agreement parts applied at concrete
levels. -/
theorem claim8_witness :
    visible_value Visibility.FansOnly = Visibility.discr Visibility.FansOnly :=
  claim8_visibility_codes.2.2.1 Visibility.FansOnly

/-- C3: when pages 1..k all return `ok = 1` with non-empty item lists and
page k+1 returns an empty list, the listing returns, as a success, the
ordered concatenation of the items of pages 1..k only, and requests
exactly pages 1..k+1 — no page beyond k+1. -/
theorem claim3_empty_page_terminates (fetch : Nat → PageFetch)
    (L : Nat → List WeiboInfo) (k fuel : Nat)
    (hgood : ∀ i, 1 ≤ i → i ≤ k → fetch i = .parsed 1 (L i))
    (hne : ∀ i, 1 ≤ i → i ≤ k → L i ≠ [])
    (hempty : fetch (k + 1) = .parsed 1 [])
    (hk : k + 1 ≤ U32_MAX) (hfuel : k + 1 ≤ fuel) :
    get_all_weibo_ids fetch none fuel =
      (List.range' 1 (k + 1), some (.ok ((List.range' 1 k).map L).flatten)) := by
  show get_all_weibo_ids_go fetch U32_MAX fuel 1 [] = _
  rw [show fuel = k + (fuel - k) from by omega]
  rw [go_run fetch L U32_MAX k 1 (fuel - k) []
    (fun i h1 h2 => ⟨hgood i h1 (by omega), hne i h1 (by omega)⟩)
    (by omega) (by omega)]
  rw [show (1 : Nat) + k = k + 1 from by omega]
  rw [show fuel - k = (fuel - k - 1) + 1 from by omega]
  rw [go_empty (fuel - k - 1) _ (by omega) hempty]
  have hr : List.range' 1 (k + 1) = List.range' 1 k ++ [k + 1] := by
    rw [List.range'_concat]
    simp [Nat.add_comm]
  rw [hr]
  simp

/-- C3 (witness): one page with one item, then an empty page. -/
theorem claim3_witness :
    get_all_weibo_ids pagesThenEmpty none 5 =
      ([1, 2], some (.ok [⟨"5001", some "hello", none⟩])) := by
  have h := claim3_empty_page_terminates pagesThenEmpty
    (fun _ => [⟨"5001", some "hello", none⟩]) 1 5
    (fun i h1 h2 => by interval_cases i; rfl)
    (fun i h1 h2 => by simp)
    rfl (by norm_num [U32_MAX]) (by omega)
  simpa [List.range'] using h

/-- C4: when pages 1..k-1 are good and the envelope of page k carries a
status flag other than 1, the listing fails immediately with `ApiError`
carrying that flag value: pages beyond k are never requested and the
items accumulated from pages 1..k-1 are discarded — the result is the
error alone. -/
theorem claim4_api_error_aborts (fetch : Nat → PageFetch)
    (L : Nat → List WeiboInfo) (k : Nat) (e : Int) (l : List WeiboInfo)
    (fuel : Nat)
    (hgood : ∀ i, 1 ≤ i → i < k → fetch i = .parsed 1 (L i))
    (hne : ∀ i, 1 ≤ i → i < k → L i ≠ [])
    (hbad : fetch k = .parsed e l) (he : e ≠ 1)
    (hk1 : 1 ≤ k) (hk : k ≤ U32_MAX) (hfuel : k ≤ fuel) :
    get_all_weibo_ids fetch none fuel =
      (List.range' 1 k, some (.error (.apiError e))) := by
  show get_all_weibo_ids_go fetch U32_MAX fuel 1 [] = _
  rw [show fuel = (k - 1) + (fuel - (k - 1)) from by omega]
  rw [go_run fetch L U32_MAX (k - 1) 1 (fuel - (k - 1)) []
    (fun i h1 h2 => ⟨hgood i h1 (by omega), hne i h1 (by omega)⟩)
    (by omega) (by omega)]
  rw [show (1 : Nat) + (k - 1) = k from by omega]
  rw [show fuel - (k - 1) = (fuel - k) + 1 from by omega]
  rw [go_apiErr (fuel - k) _ (by omega) hbad he]
  have hr : List.range' 1 k = List.range' 1 (k - 1) ++ [k] := by
    conv_lhs => rw [show k = (k - 1) + 1 from by omega, List.range'_concat]
    simp
    omega
  rw [hr]

/-- C4 (witness): a good first page, then an envelope with `ok = -100`. -/
theorem claim4_witness :
    get_all_weibo_ids pagesThenApiErr none 5 =
      ([1, 2], some (.error (.apiError (-100)))) := by
  have h := claim4_api_error_aborts pagesThenApiErr
    (fun _ => [⟨"5001", some "hello", none⟩]) 2 (-100) [] 5
    (fun i h1 h2 => by interval_cases i; rfl)
    (fun i h1 h2 => by simp)
    rfl (by norm_num) (by omega) (by norm_num [U32_MAX]) (by omega)
  simpa [List.range'] using h

/-- C9: with ceiling 2 and non-empty pages the listing requests exactly
pages 1 and 2 and returns their items in order; and in general no page
request is ever issued for a page number above the ceiling. -/
theorem claim9_page_ceiling (fetch : Nat → PageFetch)
    (L : Nat → List WeiboInfo) (fuel : Nat)
    (hgood : ∀ i, 1 ≤ i → i ≤ 2 → fetch i = .parsed 1 (L i))
    (hne : ∀ i, 1 ≤ i → i ≤ 2 → L i ≠ [])
    (hfuel : 3 ≤ fuel) :
    get_all_weibo_ids fetch (some 2) fuel = ([1, 2], some (.ok (L 1 ++ L 2))) ∧
    (∀ (g : Nat → PageFetch) (mp fuel2 p : Nat),
      p ∈ (get_all_weibo_ids g (some mp) fuel2).1 → p ≤ mp) := by
  constructor
  · show get_all_weibo_ids_go fetch 2 fuel 1 [] = _
    rw [show fuel = 2 + (fuel - 2) from by omega]
    rw [go_run fetch L 2 2 1 (fuel - 2) []
      (fun i h1 h2 => ⟨hgood i h1 (by omega), hne i h1 (by omega)⟩)
      (by omega) (by norm_num [U32_MAX])]
    rw [show fuel - 2 = (fuel - 3) + 1 from by omega]
    rw [go_stop fetch (fuel - 3) _ (by omega)]
    simp [List.range']
  · intro g mp fuel2 p hp
    exact go_pages_le g mp fuel2 1 [] p hp

/-- C9 (witness): the ceiling-2 run on the endless non-empty oracle. -/
theorem claim9_witness :
    get_all_weibo_ids constNonEmptyPage (some 2) 3 =
      ([1, 2], some (.ok [⟨"1", none, none⟩, ⟨"1", none, none⟩])) :=
  (claim9_page_ceiling constNonEmptyPage constItems 3
    (fun i h1 h2 => rfl) (fun i h1 h2 => by simp [constItems]) (by omega)).1

/-- C10 (counterexample): with no ceiling the default is `u32::MAX`, but
the wrapping `u32` page counter never exceeds it, so on an endless supply
of non-empty pages no amount of fuel completes the loop — the listing is
not total. -/
theorem claim10_counterexample :
    ¬ ∃ fuel : Nat, (get_all_weibo_ids constNonEmptyPage none fuel).2 ≠ none := by
  rintro ⟨fuel, hfuel⟩
  exact hfuel (go_const_no_fuel_enough fuel 1 [] (by norm_num [U32_MAX]))

/-- C10 (amended): the listing terminates for every page oracle whenever
an explicit ceiling strictly below `u32::MAX` is given, within ceiling+1
page requests; only the default-ceiling case can loop forever. -/
theorem claim10_amended (fetch : Nat → PageFetch) (mp fuel : Nat)
    (h1 : mp + 1 ≤ U32_MAX) (h2 : mp + 1 ≤ fuel) :
    (get_all_weibo_ids fetch (some mp) fuel).2 ≠ none :=
  go_total fetch mp h1 fuel 1 [] (by omega) (by omega)

/-- C10 (witness): termination with ceiling 2 on the endless oracle. -/
theorem claim10_witness :
    (get_all_weibo_ids constNonEmptyPage (some 2) 3).2 ≠ none :=
  claim10_amended constNonEmptyPage 2 3 (by norm_num [U32_MAX]) (by omega)

/-- C7: on both the page-fetch and the mutation path, an operation whose
every attempt fails performs exactly 3 attempts with waits of 1s and 2s
between them and surfaces the terminal error built from the last attempt;
a 2xx response on attempt k (after k failures) returns immediately after
k+1 attempts with waits `2^0, ..., 2^(k-1)` and no further attempts. -/
theorem claim7_retry_policy :
    (∀ att : Nat → AttemptResult,
      (∀ i, i < MAX_RETRIES → attemptFails (att i) = true) →
      get_with_retry att = (3, [1, 2], .error (terminalListError (att 2)))) ∧
    (∀ (att : Nat → AttemptResult) (k status : Nat) (body : String),
      k < MAX_RETRIES → (∀ i, i < k → attemptFails (att i) = true) →
      att k = .response status body → statusIsSuccess status = true →
      get_with_retry att =
        (k + 1, (List.range' 0 k).map (2 ^ ·), .ok (status, body))) ∧
    (∀ (att : Nat → AttemptResult) (parse : String → Option PrivacyResponse),
      (∀ i, i < MAX_RETRIES → attemptFails (att i) = true) →
      set_weibo_privacy att parse =
        (3, [1, 2], .error (terminalMutError (att 2)))) ∧
    (∀ (att : Nat → AttemptResult) (parse : String → Option PrivacyResponse)
      (k status : Nat) (body : String),
      k < MAX_RETRIES → (∀ i, i < k → attemptFails (att i) = true) →
      att k = .response status body → statusIsSuccess status = true →
      set_weibo_privacy att parse =
        (k + 1, (List.range' 0 k).map (2 ^ ·),
          privacy_interpret (parse body))) := by
  refine ⟨?_, ?_, ?_, ?_⟩
  · intro att h
    have hg := retry_go_exhaust att MAX_RETRIES 0 (by omega)
      (by norm_num [MAX_RETRIES]) (fun i _ hi => h i hi)
    unfold get_with_retry
    rw [hg]
    norm_num [MAX_RETRIES, List.range']
  · intro att k status body hk hfails ha hs
    have hg := retry_go_succeeds att status body MAX_RETRIES 0 k (by omega)
      (by omega) hk (fun i _ hi => hfails i hi) ha hs
    unfold get_with_retry
    rw [hg]
    simp
  · intro att parse h
    have hg := mut_go_exhaust att parse MAX_RETRIES 0 (by omega)
      (by norm_num [MAX_RETRIES]) (fun i _ hi => h i hi)
    unfold set_weibo_privacy
    rw [hg]
    norm_num [MAX_RETRIES, List.range']
  · intro att parse k status body hk hfails ha hs
    have hg := mut_go_succeeds att parse status body MAX_RETRIES 0 k (by omega)
      (by omega) hk (fun i _ hi => hfails i hi) ha hs
    unfold set_weibo_privacy
    rw [hg]
    simp

/-- C7 (witness): exhaustion on an always-418 oracle for the page path,
and success on the third attempt for the mutation path. -/
theorem claim7_witness :
    get_with_retry attAllFail = (3, [1, 2], .error (.httpError 418 "teapot")) ∧
    set_weibo_privacy attThirdOk parseNone = (3, [1, 2], .ok ()) := by
  constructor
  · have h := claim7_retry_policy.1 attAllFail (fun i _ => rfl)
    simpa [attAllFail, terminalListError] using h
  · have h := claim7_retry_policy.2.2.2 attThirdOk parseNone 2 200 "ok-body"
      (by norm_num [MAX_RETRIES]) (fun i hi => by interval_cases i <;> rfl)
      rfl rfl
    simpa [parseNone, privacy_interpret, List.range'] using h

end WeiboHide
